import Mathlib

/-!
Verification of the S3-backed remote cache tier of go-tool-cache.

The definitions below are a shallow embedding of the file cachers/s3.go and
of the bucket-resolution logic of the go-cacher command. Byte streams are
modelled as lists of bytes (the bytes an io.Reader yields), the S3 service
as a map from object keys to stored objects, Go error values reaching
isNotFoundError as an optional S3Error (where S3Error.apiError is an error
that errors.As can view as a smithy.APIError, carrying its ErrorCode and
the message string its Error method returns), and a nil-pointer
dereference panic as the none value of an Option result.
-/

namespace GoToolCache

/-- Bytes of a request or response body, as yielded by an io.Reader. -/
abbrev Bytes := List UInt8

/-- A Go error value as observed by isNotFoundError: either an error that
errors.As matches as a smithy.APIError (with its ErrorCode and the message
string returned by its Error method), or any other error. -/
inductive S3Error where
  | apiError (code : String) (message : String)
  | otherError (message : String)
deriving DecidableEq

/-- The fields of s3.GetObjectOutput that S3Cache.Get reads: ContentLength
is a pointer to int64 (hence an Option), Metadata a string-to-string map
(association list), and Body the object bytes. -/
structure GetObjectOutput where
  contentLength : Option Int
  metadata : List (String × String)
  body : Bytes
deriving DecidableEq

/-- The fields of the s3.PutObjectInput built by S3Cache.Put, together
with the RetryMaxAttempts option installed by the options function passed
alongside it. -/
structure PutObjectInput where
  bucket : String
  key : String
  body : Bytes
  contentLength : Int
  metadata : List (String × String)
  retryMaxAttempts : Nat
deriving DecidableEq

/-- An object at rest in the S3 bucket: its bytes and its user metadata. -/
structure StoredObject where
  body : Bytes
  metadata : List (String × String)
deriving DecidableEq

/-- The S3 store model: a map from object keys to stored objects. -/
def S3Store := String → Option StoredObject

/-- The store with no objects. -/
def emptyStore : S3Store := fun _ => none

/-- Model of GetObject against the store: a present key answers with the
object bytes, its metadata, and its actual length as ContentLength; an
absent key answers with a NoSuchKey API error. -/
def getObject (store : S3Store) (key : String) : Except S3Error GetObjectOutput :=
  match store key with
  | some obj => .ok ⟨some (obj.body.length : Int), obj.metadata, obj.body⟩
  | none => .error (.apiError "NoSuchKey" "The specified key does not exist.")

/-- Model of PutObject against the store: record the request body and
metadata under the request key. -/
def putObject (store : S3Store) (req : PutObjectInput) : S3Store :=
  fun k => if k = req.key then some ⟨req.body, req.metadata⟩ else store k

/-- Embedding of strings.Contains: some position of s starts with pat. -/
def strContains (s pat : String) : Bool :=
  (List.range (s.data.length + 1)).any (fun i => pat.data.isPrefixOf (s.data.drop i))

/-- The function isNotFoundError from cachers/s3.go: a nil error or a
non-API error is not "not found"; an API error is "not found" when its
code is NoSuchKey, or when its code is AccessDenied and its message does
not contain SignatureDoesNotMatch. -/
def isNotFoundError : Option S3Error → Bool
  | some (.apiError code message) =>
      if code = "NoSuchKey" then true
      else if code = "AccessDenied" then !(strContains message "SignatureDoesNotMatch")
      else false
  | some (.otherError _) => false
  | none => false

/-- The S3Cache struct. The Go field named like the English word for a
leading key segment is a Lean keyword and is embedded here as pfx. -/
structure S3Cache where
  bucket : String
  pfx : String
  verbose : Bool
  SkipZeroBytePuts : Bool
deriving DecidableEq

/-- The method S3Cache.actionKey: the pfx field, a slash, and the
ActionID. -/
def S3Cache.actionKey (s : S3Cache) (actionID : String) : String :=
  s.pfx ++ "/" ++ actionID

/-- The constructor NewS3Cache. Here getenv is os.Getenv (returning the
empty string for an unset variable); runtimeGOARCH and runtimeGOOS are
runtime.GOARCH and runtime.GOOS. The struct literal in the source leaves
SkipZeroBytePuts at its zero value, false. -/
def NewS3Cache (getenv : String → String) (runtimeGOARCH runtimeGOOS : String)
    (bucketName cacheKey : String) (verbose : Bool) : S3Cache :=
  let goarch := if getenv "GOARCH" = "" then runtimeGOARCH else getenv "GOARCH"
  let goos := if getenv "GOOS" = "" then runtimeGOOS else getenv "GOOS"
  { bucket := bucketName
    pfx := "cache/" ++ cacheKey ++ "/" ++ goarch ++ "/" ++ goos
    verbose := verbose
    SkipZeroBytePuts := false }

/-- The errors S3Cache.Get can return: the wrapped unexpected-S3-get error
(carrying the action key and the underlying error), or the error whose
message is that the outputId was not found in metadata. -/
inductive GetError where
  | unexpectedS3Get (key : String) (e : S3Error)
  | outputIdNotFound
deriving DecidableEq

/-- The quadruple returned by S3Cache.Get: outputID, size, output and err;
output being none models a nil io.ReadCloser. -/
structure GetReturn where
  outputID : String
  size : Int
  output : Option Bytes
  err : Option GetError
deriving DecidableEq

/-- The body of S3Cache.Get after the GetObject call, applied to the
outcome of that call. A none result models the nil-pointer dereference
panic on ContentLength when that pointer is nil; every some result is a
normal return. -/
def getFromResponse (actionKey : String) (resp : Except S3Error GetObjectOutput) :
    Option GetReturn :=
  match resp with
  | .error e =>
      if isNotFoundError (some e) then some ⟨"", 0, none, none⟩
      else some ⟨"", 0, none, some (.unexpectedS3Get actionKey e)⟩
  | .ok outputResult =>
      let contentSize := outputResult.contentLength
      match outputResult.metadata.lookup "outputid" with
      | none => some ⟨"", 0, none, some .outputIdNotFound⟩
      | some outputID =>
          if outputID = "" then some ⟨"", 0, none, some .outputIdNotFound⟩
          else
            match contentSize with
            | none => none
            | some n => some ⟨outputID, n, some outputResult.body, none⟩

/-- The method S3Cache.Get over the store model. -/
def S3Cache.Get (s : S3Cache) (store : S3Store) (actionID : String) : Option GetReturn :=
  getFromResponse (s.actionKey actionID) (getObject store (s.actionKey actionID))

/-- The errors S3Cache.Put can return over the store model (reading a pure
byte list never fails, and the modelled PutObject always succeeds, so only
the size-mismatch error remains). -/
inductive PutError where
  | sizeMismatch (expected : Int) (got : Nat)
deriving DecidableEq

/-- The outcome of S3Cache.Put over the store model: the store after the
call, the PutObject request issued (if any), and the returned error (if
any). -/
structure PutResult where
  store : S3Store
  request : Option PutObjectInput
  err : Option PutError

/-- The method S3Cache.Put. With size zero, SkipZeroBytePuts
short-circuits; otherwise the body is replaced by an empty reader. The
body is then fully read into buf; a length different from size is an
error issued before any PutObject request. Otherwise a PutObject request
is sent carrying the buffered bytes, ContentLength equal to size, the
OutputID under the outputid metadata key, and RetryMaxAttempts zero. -/
def S3Cache.Put (s : S3Cache) (store : S3Store) (actionID outputID : String)
    (size : Int) (body : Bytes) : PutResult :=
  if size = 0 ∧ s.SkipZeroBytePuts then ⟨store, none, none⟩
  else
    let buf : Bytes := if size = 0 then [] else body
    if (buf.length : Int) ≠ size then ⟨store, none, some (.sizeMismatch size buf.length)⟩
    else
      let req : PutObjectInput :=
        ⟨s.bucket, s.actionKey actionID, buf, size, [("outputid", outputID)], 0⟩
      ⟨putObject store req, some req, none⟩

/-- The result of stringArg in the go-cacher command: the resolved string,
or a log.Fatalf exit. -/
inductive ArgResult where
  | ok (value : String)
  | fatal
deriving DecidableEq

/-- The environment-variable namespace of the go-cacher command. -/
def envVarNamespace : String := "GOCACHE_"

/-- The function stringArg from the go-cacher command: the positional
argument at pos when present, else the GOCACHE_-namespaced environment
variable when set (lookupEnv is os.LookupEnv), else log.Fatalf. -/
def stringArg (lookupEnv : String → Option String) (pos : Nat) (args : List String)
    (envVariable : String) : ArgResult :=
  if h : pos < args.length then .ok (args.get ⟨pos, h⟩)
  else
    match lookupEnv (envVarNamespace ++ envVariable) with
    | some envVal => .ok envVal
    | none => .fatal

/-- The bucket resolution performed by parseConfig: stringArg at position
zero of the flag arguments, with the S3_BUCKET environment fallback. -/
def parseConfigBucket (lookupEnv : String → Option String) (args : List String) : ArgResult :=
  stringArg lookupEnv 0 args "S3_BUCKET"

/-- Outcome of process startup: a fatal exit before the protocol loop, or
entry into the protocol loop with a resolved bucket. -/
inductive StartupOutcome where
  | fatalBeforeProtocolLoop
  | protocolLoop (bucket : String)
deriving DecidableEq

/-- The startup sequence of the go-cacher main function: parseConfig (and
with it stringArg, whose log.Fatalf terminates the process) runs before
proc.Run, so the protocol loop begins only once the bucket has been
resolved. -/
def mainStartup (lookupEnv : String → Option String) (args : List String) : StartupOutcome :=
  match parseConfigBucket lookupEnv args with
  | .fatal => .fatalBeforeProtocolLoop
  | .ok bucket => .protocolLoop bucket

/-- A concrete cache instance (SkipZeroBytePuts false) for witnesses. -/
def sampleCache : S3Cache := ⟨"bkt", "p", false, false⟩

/-- A concrete cache instance with SkipZeroBytePuts true. -/
def sampleCacheSkip : S3Cache := ⟨"bkt", "p", false, true⟩

/-- A concrete environment for witnesses: GOARCH is set, GOOS is not. -/
def envSample : String → String := fun k => if k = "GOARCH" then "arm64" else ""

/-- A concrete empty os.LookupEnv environment for witnesses. -/
def envNone : String → Option String := fun _ => none

/-- A concrete os.LookupEnv environment with only the bucket set. -/
def envBucket : String → Option String :=
  fun k => if k = "GOCACHE_S3_BUCKET" then some "b" else none

/-- With size zero and SkipZeroBytePuts set, Put returns immediately with
no request and no error. -/
theorem put_eq_skip (s : S3Cache) (store : S3Store) (A O : String) (body : Bytes)
    (h : s.SkipZeroBytePuts = true) :
    s.Put store A O 0 body = ⟨store, none, none⟩ := by
  simp [S3Cache.Put, h]

/-- With size zero and SkipZeroBytePuts unset, Put issues a request with
an empty body. -/
theorem put_eq_zero (s : S3Cache) (store : S3Store) (A O : String) (body : Bytes)
    (h : s.SkipZeroBytePuts = false) :
    s.Put store A O 0 body =
      ⟨putObject store ⟨s.bucket, s.actionKey A, [], 0, [("outputid", O)], 0⟩,
       some ⟨s.bucket, s.actionKey A, [], 0, [("outputid", O)], 0⟩, none⟩ := by
  simp [S3Cache.Put, h]

/-- With nonzero size and a body of differing length, Put stops with the
size-mismatch error. -/
theorem put_eq_mismatch (s : S3Cache) (store : S3Store) (A O : String) (S : Int)
    (body : Bytes) (hS : S ≠ 0) (h : (body.length : Int) ≠ S) :
    s.Put store A O S body = ⟨store, none, some (.sizeMismatch S body.length)⟩ := by
  simp [S3Cache.Put, hS, h]

/-- With nonzero size and a body of matching length, Put issues the full
request. -/
theorem put_eq_ok (s : S3Cache) (store : S3Store) (A O : String) (S : Int)
    (body : Bytes) (hS : S ≠ 0) (h : (body.length : Int) = S) :
    s.Put store A O S body =
      ⟨putObject store ⟨s.bucket, s.actionKey A, body, S, [("outputid", O)], 0⟩,
       some ⟨s.bucket, s.actionKey A, body, S, [("outputid", O)], 0⟩, none⟩ := by
  simp [S3Cache.Put, hS, h]

/-- Every request that Put issues has the shape built at its single
PutObject call site. -/
theorem put_request_some (s : S3Cache) (store : S3Store) (A O : String)
    (S : Int) (body : Bytes) (req : PutObjectInput)
    (h : (s.Put store A O S body).request = some req) :
    req.bucket = s.bucket ∧ req.key = s.actionKey A ∧
    req.body = (if S = 0 then ([] : Bytes) else body) ∧
    (req.body.length : Int) = S ∧ req.contentLength = S ∧
    req.metadata = [("outputid", O)] ∧ req.retryMaxAttempts = 0 := by
  by_cases hS : S = 0
  · subst hS
    by_cases hsk : s.SkipZeroBytePuts = true
    · rw [put_eq_skip s store A O body hsk] at h
      simp at h
    · rw [put_eq_zero s store A O body (by simpa using hsk)] at h
      simp only [Option.some.injEq] at h
      subst h
      exact ⟨rfl, rfl, rfl, rfl, rfl, rfl, rfl⟩
  · by_cases hlen : (body.length : Int) = S
    · rw [put_eq_ok s store A O S body hS hlen] at h
      simp only [Option.some.injEq] at h
      subst h
      refine ⟨rfl, rfl, ?_, hlen, rfl, rfl, rfl⟩
      rw [if_neg hS]
    · rw [put_eq_mismatch s store A O S body hS hlen] at h
      simp at h

/-- Reading back the key a request was just stored under yields the
request body and metadata, with the actual body length as ContentLength. -/
theorem getObject_putObject (st : S3Store) (req : PutObjectInput) (k : String)
    (h : k = req.key) :
    getObject (putObject st req) k =
      .ok ⟨some (req.body.length : Int), req.metadata, req.body⟩ := by
  subst h
  simp [getObject, putObject]

/-- C1 (amended): for every ActionID A, non-empty OutputID O, size S and
body of exactly S bytes, with S positive or SkipZeroBytePuts false, after
a successful S3Cache.Put of (A, O, S, body) the call S3Cache.Get A
returns exactly (O, S, body) with no error, over the model of the S3
store mapping object keys to body bytes plus metadata. -/
theorem s3cache_put_get_roundtrip (s : S3Cache) (store : S3Store) (A O : String)
    (S : Int) (body : Bytes) (hO : O ≠ "") (hlen : (body.length : Int) = S)
    (hcond : 0 < S ∨ s.SkipZeroBytePuts = false)
    (hput : (s.Put store A O S body).err = none) :
    s.Get ((s.Put store A O S body).store) A = some ⟨O, S, some body, none⟩ := by
  by_cases hS : S = 0
  · subst hS
    have hb : body = [] := by simpa using hlen
    subst hb
    have hskip : s.SkipZeroBytePuts = false := by
      rcases hcond with h | h
      · exact absurd h (lt_irrefl 0)
      · exact h
    rw [put_eq_zero s store A O [] hskip]
    unfold S3Cache.Get
    rw [getObject_putObject _ _ _ rfl]
    simp [getFromResponse, List.lookup, hO]
  · rw [put_eq_ok s store A O S body hS hlen]
    unfold S3Cache.Get
    rw [getObject_putObject _ _ _ rfl]
    simp [getFromResponse, List.lookup, hO, hlen]

/-- C1 (counterexample to the claim as stated): with the empty OutputID,
size one and body byte 104, Put succeeds, yet the following Get reports
the missing-outputId error instead of returning the stored triple. -/
theorem s3cache_put_get_empty_outputid_cex :
    ((sampleCache.Put emptyStore "a" "" 1 [104]).err = none) ∧
    (sampleCache.Get ((sampleCache.Put emptyStore "a" "" 1 [104]).store) "a" =
      some ⟨"", 0, none, some .outputIdNotFound⟩) ∧
    (sampleCache.Get ((sampleCache.Put emptyStore "a" "" 1 [104]).store) "a" ≠
      some ⟨"", 1, some [104], none⟩) :=
  ⟨by decide, by decide, by decide⟩

/-- C1 witness: a concrete successful round trip through the store. -/
theorem s3cache_put_get_roundtrip_witness :
    sampleCache.Get ((sampleCache.Put emptyStore "a" "o" 1 [104]).store) "a" =
      some ⟨"o", 1, some [104], none⟩ :=
  s3cache_put_get_roundtrip sampleCache emptyStore "a" "o" 1 [104] (by decide)
    (by decide) (Or.inl (by decide)) (by decide)

/-- C2: a failed GetObject call yields a Miss exactly for a NoSuchKey
error or an AccessDenied error whose message lacks SignatureDoesNotMatch;
an AccessDenied error mentioning SignatureDoesNotMatch, every other API
error, and every non-API error make Get return an error. -/
theorem s3cache_get_error_classification (key code msg : String) :
    (getFromResponse key (.error (.apiError code msg)) = some ⟨"", 0, none, none⟩ ↔
      code = "NoSuchKey" ∨
        (code = "AccessDenied" ∧ strContains msg "SignatureDoesNotMatch" = false)) ∧
    (getFromResponse key (.error (.otherError msg)) =
      some ⟨"", 0, none, some (.unexpectedS3Get key (.otherError msg))⟩) ∧
    (¬(code = "NoSuchKey" ∨
        (code = "AccessDenied" ∧ strContains msg "SignatureDoesNotMatch" = false)) →
      getFromResponse key (.error (.apiError code msg)) =
        some ⟨"", 0, none, some (.unexpectedS3Get key (.apiError code msg))⟩) := by
  refine ⟨?_, by simp [getFromResponse, isNotFoundError], ?_⟩
  · by_cases h1 : code = "NoSuchKey"
    · simp [getFromResponse, isNotFoundError, h1]
    · by_cases h2 : code = "AccessDenied"
      · subst h2
        by_cases h3 : strContains msg "SignatureDoesNotMatch"
        · simp [getFromResponse, isNotFoundError, h1, h3]
        · simp [getFromResponse, isNotFoundError, h1, h3]
      · simp [getFromResponse, isNotFoundError, h1, h2]
  · intro hn
    push_neg at hn
    by_cases h2 : code = "AccessDenied"
    · subst h2
      have h3 : strContains msg "SignatureDoesNotMatch" = true := by
        rcases hn with ⟨h1, h4⟩
        cases hh : strContains msg "SignatureDoesNotMatch"
        · exact absurd hh (h4 rfl)
        · rfl
      simp [getFromResponse, isNotFoundError, h3]
    · rcases hn with ⟨h1, _⟩
      simp [getFromResponse, isNotFoundError, h1, h2]

/-- C2 witness: an AccessDenied error whose message carries
SignatureDoesNotMatch is reported as an error, not a miss. -/
theorem s3cache_get_error_classification_witness :
    getFromResponse "k" (.error (.apiError "AccessDenied" "x SignatureDoesNotMatch y")) =
      some ⟨"", 0, none,
        some (.unexpectedS3Get "k"
          (.apiError "AccessDenied" "x SignatureDoesNotMatch y"))⟩ :=
  (s3cache_get_error_classification "k" "AccessDenied"
    "x SignatureDoesNotMatch y").2.2 (by decide)

/-- C3: a successful GetObject response whose metadata lacks the outputid
key, or maps it to the empty string, makes Get return the
missing-outputId error rather than a hit or a miss. -/
theorem s3cache_get_missing_outputid (key : String) (out : GetObjectOutput)
    (h : out.metadata.lookup "outputid" = none ∨
      out.metadata.lookup "outputid" = some "") :
    getFromResponse key (.ok out) = some ⟨"", 0, none, some .outputIdNotFound⟩ := by
  rcases h with h | h <;> simp [getFromResponse, h]

/-- C3 witness: a response with empty metadata produces the
missing-outputId error. -/
theorem s3cache_get_missing_outputid_witness :
    getFromResponse "k" (.ok ⟨some 5, [], [1, 2]⟩) =
      some ⟨"", 0, none, some .outputIdNotFound⟩ :=
  s3cache_get_missing_outputid "k" ⟨some 5, [], [1, 2]⟩ (Or.inl rfl)

/-- C4: when the bytes Put actually reads differ in count from the
declared size, Put returns the size-mismatch error, issues no PutObject
request, and leaves the store unchanged. -/
theorem s3cache_put_size_mismatch (s : S3Cache) (store : S3Store) (A O : String)
    (S : Int) (body : Bytes)
    (h : ((if S = 0 then ([] : Bytes) else body).length : Int) ≠ S) :
    s.Put store A O S body =
      ⟨store, none,
       some (.sizeMismatch S (if S = 0 then ([] : Bytes) else body).length)⟩ := by
  have hS : S ≠ 0 := by
    intro h0
    subst h0
    simp at h
  rw [if_neg hS] at h ⊢
  exact put_eq_mismatch s store A O S body hS h

/-- C4 witness: one body byte against a declared size of two. -/
theorem s3cache_put_size_mismatch_witness :
    sampleCache.Put emptyStore "a" "o" 2 [104] =
      ⟨emptyStore, none, some (.sizeMismatch 2 1)⟩ :=
  s3cache_put_size_mismatch sampleCache emptyStore "a" "o" 2 [104] (by decide)

/-- C5: a Put of size zero returns nil with no PutObject request when
SkipZeroBytePuts is true, and issues a PutObject request with an empty
body and ContentLength zero when SkipZeroBytePuts is false. -/
theorem s3cache_put_zero_size (s : S3Cache) (store : S3Store) (A O : String)
    (body : Bytes) :
    (s.SkipZeroBytePuts = true → s.Put store A O 0 body = ⟨store, none, none⟩) ∧
    (s.SkipZeroBytePuts = false →
      s.Put store A O 0 body =
        ⟨putObject store ⟨s.bucket, s.actionKey A, [], 0, [("outputid", O)], 0⟩,
         some ⟨s.bucket, s.actionKey A, [], 0, [("outputid", O)], 0⟩, none⟩) :=
  ⟨fun h => put_eq_skip s store A O body h, fun h => put_eq_zero s store A O body h⟩

/-- C5 witness: both SkipZeroBytePuts settings at a concrete input. -/
theorem s3cache_put_zero_size_witness :
    (sampleCacheSkip.Put emptyStore "a" "o" 0 [1, 2] = ⟨emptyStore, none, none⟩) ∧
    (sampleCache.Put emptyStore "a" "o" 0 [1, 2] =
      ⟨putObject emptyStore ⟨"bkt", "p/a", [], 0, [("outputid", "o")], 0⟩,
       some ⟨"bkt", "p/a", [], 0, [("outputid", "o")], 0⟩, none⟩) :=
  ⟨(s3cache_put_zero_size sampleCacheSkip emptyStore "a" "o" [1, 2]).1 rfl,
   (s3cache_put_zero_size sampleCache emptyStore "a" "o" [1, 2]).2 rfl⟩

/-- C6: every PutObject request that Put issues carries the fully
buffered body bytes (the whole stream, read before the request is built),
ContentLength equal to the declared size, the OutputID under the outputid
metadata key, and RetryMaxAttempts zero. -/
theorem s3cache_put_request_buffered (s : S3Cache) (store : S3Store) (A O : String)
    (S : Int) (body : Bytes) (req : PutObjectInput)
    (h : (s.Put store A O S body).request = some req) :
    req.body = (if S = 0 then ([] : Bytes) else body) ∧
    (req.body.length : Int) = S ∧
    req.metadata = [("outputid", O)] ∧
    req.retryMaxAttempts = 0 ∧
    req.contentLength = S := by
  obtain ⟨_, _, h3, h4, h5, h6, h7⟩ := put_request_some s store A O S body req h
  exact ⟨h3, h4, h6, h7, h5⟩

/-- C6 witness: the request issued for a one-byte body. -/
theorem s3cache_put_request_buffered_witness :
    ((⟨"bkt", "p/a", [104], 1, [("outputid", "o")], 0⟩ : PutObjectInput).body =
      [104]) ∧
    (((⟨"bkt", "p/a", [104], 1, [("outputid", "o")], 0⟩ : PutObjectInput).body.length :
      Int) = 1) ∧
    ((⟨"bkt", "p/a", [104], 1, [("outputid", "o")], 0⟩ : PutObjectInput).metadata =
      [("outputid", "o")]) ∧
    ((⟨"bkt", "p/a", [104], 1, [("outputid", "o")], 0⟩ :
      PutObjectInput).retryMaxAttempts = 0) ∧
    ((⟨"bkt", "p/a", [104], 1, [("outputid", "o")], 0⟩ :
      PutObjectInput).contentLength = 1) :=
  s3cache_put_request_buffered sampleCache emptyStore "a" "o" 1 [104]
    ⟨"bkt", "p/a", [104], 1, [("outputid", "o")], 0⟩ (by decide)

/-- C7: a cache built by NewS3Cache addresses, in Get and in Put, the key
cache/cacheKey/goarch/goos/ActionID, where goarch and goos come from the
GOARCH and GOOS environment variables when non-empty and otherwise from
the runtime values of the process. -/
theorem s3cache_remote_key_space (getenv : String → String) (ga go bn ck : String)
    (v : Bool) (aid : String) (store : S3Store) (O : String) (S : Int) (body : Bytes)
    (req : PutObjectInput) :
    ((NewS3Cache getenv ga go bn ck v).actionKey aid =
      "cache/" ++ ck ++ "/" ++ (if getenv "GOARCH" = "" then ga else getenv "GOARCH") ++
        "/" ++ (if getenv "GOOS" = "" then go else getenv "GOOS") ++ "/" ++ aid) ∧
    (((NewS3Cache getenv ga go bn ck v).Put store aid O S body).request = some req →
      req.key = (NewS3Cache getenv ga go bn ck v).actionKey aid) ∧
    ((NewS3Cache getenv ga go bn ck v).Get store aid =
      getFromResponse ((NewS3Cache getenv ga go bn ck v).actionKey aid)
        (getObject store ((NewS3Cache getenv ga go bn ck v).actionKey aid))) := by
  refine ⟨?_, ?_, rfl⟩
  · simp [NewS3Cache, S3Cache.actionKey, String.append_assoc]
  · intro h
    exact (put_request_some _ store aid O S body req h).2.1

/-- C7 witness: with GOARCH overridden to arm64 and GOOS unset, the key is
cache/v1/arm64/linux/a for both directions. -/
theorem s3cache_remote_key_space_witness :
    ((NewS3Cache envSample "amd64" "linux" "b" "v1" false).actionKey "a" =
      "cache/" ++ "v1" ++ "/" ++
        (if envSample "GOARCH" = "" then "amd64" else envSample "GOARCH") ++ "/" ++
        (if envSample "GOOS" = "" then "linux" else envSample "GOOS") ++ "/" ++ "a") ∧
    ((⟨"b", "cache/v1/arm64/linux/a", [104], 1, [("outputid", "o")], 0⟩
        : PutObjectInput).key =
      (NewS3Cache envSample "amd64" "linux" "b" "v1" false).actionKey "a") ∧
    ((NewS3Cache envSample "amd64" "linux" "b" "v1" false).Get emptyStore "a" =
      getFromResponse
        ((NewS3Cache envSample "amd64" "linux" "b" "v1" false).actionKey "a")
        (getObject emptyStore
          ((NewS3Cache envSample "amd64" "linux" "b" "v1" false).actionKey "a"))) :=
  ⟨(s3cache_remote_key_space envSample "amd64" "linux" "b" "v1" false "a" emptyStore
      "o" 1 [104]
      ⟨"b", "cache/v1/arm64/linux/a", [104], 1, [("outputid", "o")], 0⟩).1,
   (s3cache_remote_key_space envSample "amd64" "linux" "b" "v1" false "a" emptyStore
      "o" 1 [104]
      ⟨"b", "cache/v1/arm64/linux/a", [104], 1, [("outputid", "o")], 0⟩).2.1
     (by decide),
   (s3cache_remote_key_space envSample "amd64" "linux" "b" "v1" false "a" emptyStore
      "o" 1 [104]
      ⟨"b", "cache/v1/arm64/linux/a", [104], 1, [("outputid", "o")], 0⟩).2.2⟩

/-- C8: the bucket comes from the first positional argument, then from the
GOCACHE_S3_BUCKET environment variable, and when neither is supplied the
process exits fatally before the protocol loop begins. -/
theorem gocacher_bucket_resolution (lookupEnv : String → Option String)
    (args : List String) :
    (args ≠ [] → parseConfigBucket lookupEnv args = .ok (args.headD "")) ∧
    (args = [] → lookupEnv "GOCACHE_S3_BUCKET" = none →
      parseConfigBucket lookupEnv args = .fatal ∧
      mainStartup lookupEnv args = .fatalBeforeProtocolLoop) ∧
    (∀ v, args = [] → lookupEnv "GOCACHE_S3_BUCKET" = some v →
      parseConfigBucket lookupEnv args = .ok v ∧
      mainStartup lookupEnv args = .protocolLoop v) := by
  have henv : envVarNamespace ++ "S3_BUCKET" = "GOCACHE_S3_BUCKET" := rfl
  refine ⟨?_, ?_, ?_⟩
  · intro hne
    cases args with
    | nil => exact absurd rfl hne
    | cons a rest => simp [parseConfigBucket, stringArg]
  · intro ha he
    subst ha
    constructor
    · simp [parseConfigBucket, stringArg, henv, he]
    · simp [mainStartup, parseConfigBucket, stringArg, henv, he]
  · intro v ha he
    subst ha
    constructor
    · simp [parseConfigBucket, stringArg, henv, he]
    · simp [mainStartup, parseConfigBucket, stringArg, henv, he]

/-- C8 witness: the argument wins, the environment is the fallback, and
with neither the startup is fatal. -/
theorem gocacher_bucket_resolution_witness :
    (parseConfigBucket envNone ["bkt"] = .ok "bkt") ∧
    (parseConfigBucket envNone [] = .fatal ∧
      mainStartup envNone [] = .fatalBeforeProtocolLoop) ∧
    (parseConfigBucket envBucket [] = .ok "b" ∧
      mainStartup envBucket [] = .protocolLoop "b") :=
  ⟨(gocacher_bucket_resolution envNone ["bkt"]).1 (by decide),
   (gocacher_bucket_resolution envNone []).2.1 rfl rfl,
   (gocacher_bucket_resolution envBucket []).2.2 "b" rfl (by decide)⟩

/-- C9: a miss returns the empty OutputID, zero size, a nil stream and a
nil error, and among returns with a nil error an empty OutputID and a nil
stream coincide, so a miss is told from a hit only by the empty OutputID,
never by a non-nil error. -/
theorem s3cache_get_miss_shape (key : String) (e : S3Error)
    (resp : Except S3Error GetObjectOutput) (r : GetReturn) :
    (isNotFoundError (some e) = true →
      getFromResponse key (.error e) = some ⟨"", 0, none, none⟩) ∧
    (getFromResponse key resp = some r → r.err = none →
      (r.outputID = "" ↔ r.output = none)) := by
  constructor
  · intro h
    simp [getFromResponse, h]
  · intro hr herr
    rcases resp with e2 | out
    · by_cases hnf : isNotFoundError (some e2) = true
      · simp [getFromResponse, hnf] at hr
        subst hr
        simp
      · simp [getFromResponse, hnf] at hr
        subst hr
        simp at herr
    · cases hlk : out.metadata.lookup "outputid" with
      | none =>
          simp [getFromResponse, hlk] at hr
          subst hr
          simp at herr
      | some oid =>
          by_cases hoid : oid = ""
          · simp [getFromResponse, hlk, hoid] at hr
            subst hr
            simp at herr
          · cases hcl : out.contentLength with
            | none => simp [getFromResponse, hlk, hoid, hcl] at hr
            | some n =>
                simp [getFromResponse, hlk, hoid, hcl] at hr
                subst hr
                simp [hoid]

/-- C9 witness: a NoSuchKey failure yields the miss quadruple, whose empty
OutputID and nil stream coincide. -/
theorem s3cache_get_miss_shape_witness :
    (getFromResponse "k" (.error (.apiError "NoSuchKey" "m")) =
      some ⟨"", 0, none, none⟩) ∧
    ((⟨"", 0, none, none⟩ : GetReturn).outputID = "" ↔
      (⟨"", 0, none, none⟩ : GetReturn).output = none) :=
  ⟨(s3cache_get_miss_shape "k" (.apiError "NoSuchKey" "m")
      (.error (.apiError "NoSuchKey" "m")) ⟨"", 0, none, none⟩).1 (by decide),
   (s3cache_get_miss_shape "k" (.apiError "NoSuchKey" "m")
      (.error (.apiError "NoSuchKey" "m")) ⟨"", 0, none, none⟩).2 (by decide) rfl⟩

/-- C10: on a successful GetObject response carrying a non-empty outputid,
Get dereferences the ContentLength pointer unconditionally: it panics
exactly when ContentLength is nil, and returns otherwise. -/
theorem s3cache_get_contentlength_deref (key : String) (out : GetObjectOutput)
    (oid : String) (h1 : out.metadata.lookup "outputid" = some oid)
    (h2 : oid ≠ "") :
    (getFromResponse key (.ok out) = none ↔ out.contentLength = none) := by
  cases hcl : out.contentLength <;> simp [getFromResponse, h1, h2, hcl]

/-- C10 witness: a response with outputid set and a nil ContentLength. -/
theorem s3cache_get_contentlength_deref_witness :
    (getFromResponse "k" (.ok ⟨none, [("outputid", "o")], []⟩) = none ↔
      (⟨none, [("outputid", "o")], []⟩ : GetObjectOutput).contentLength = none) :=
  s3cache_get_contentlength_deref "k" ⟨none, [("outputid", "o")], []⟩ "o" (by decide)
    (by decide)

end GoToolCache
